import Mathlib

/-!
# Certificate issuance-and-verification system: a verification development

Shallow embedding of the certificate lifecycle core of the repository:

* `CertificateRegistry.sol` — the on-chain ledger contract: two mappings
  (`certificates`, `authorizedInstitutions`), an `admin` address, and the
  state-changing functions `issueCertificate`, `revokeCertificate`,
  `addInstitution` plus the view `verifyCertificate`.  A reverting
  `require` is modelled as `Except.error` carrying the revert message;
  success returns the updated state.
* `backend/server.js` — the Express routes that coordinate the ledger
  with the local SQLite mirror and the uploads directory:
  `POST /api/certificates/issue`, `GET /api/certificates/verify/:certId`,
  `GET /api/certificates/:certId/pdf`,
  `GET /api/certificates/download/:certId`, and
  `DELETE /api/admin/certificates/:certId`.

Chain addresses are abstracted as naturals; clocks (`Date.now()`,
`block.timestamp`, `new Date().toISOString()`) and the transport link to
the chain are passed in as explicit parameters.
-/

namespace CertSys

/-- A chain address (`address` in Solidity), abstracted. -/
abbrev Addr := Nat

/-- The `Certificate` struct of `CertificateRegistry.sol`.  The Solidity
field `exists` is spelled `exists_` (keyword clash). -/
structure Certificate where
  studentName : String
  course : String
  grade : String
  issueDate : Nat
  isRevoked : Bool
  exists_ : Bool
deriving DecidableEq, Repr

/-- The all-defaults struct value a Solidity mapping yields for an absent
key: empty strings, zero timestamp, both flags false. -/
def Certificate.default : Certificate :=
  { studentName := "", course := "", grade := "", issueDate := 0
    isRevoked := false, exists_ := false }

/-- Contract storage of `CertificateRegistry`: the two mappings and the
admin address.  Mappings are total functions with the Solidity default
for unset keys. -/
structure RegistryState where
  certificates : String → Certificate
  authorizedInstitutions : Addr → Bool
  admin : Addr

/-- The constructor: deployer becomes `admin` and is the one authorized
institution. -/
def RegistryState.init (deployer : Addr) : RegistryState :=
  { certificates := fun _ => Certificate.default
    authorizedInstitutions := fun a => a == deployer
    admin := deployer }

/-- Function `issueCertificate` (contract lines 40–58): `onlyAuthorized`, then
`require(!certificates[certId].exists, "Already exists")`, then stores a
fresh record with `issueDate = block.timestamp`, `isRevoked = false`,
`exists = true`.  `timestamp` stands for `block.timestamp`. -/
def issueCertificate (s : RegistryState) (sender : Addr)
    (certId studentName course grade : String) (timestamp : Nat) :
    Except String RegistryState :=
  if s.authorizedInstitutions sender = false then
    Except.error "Not authorized"
  else if (s.certificates certId).exists_ then
    Except.error "Already exists"
  else
    Except.ok { s with certificates := fun k =>
      if k = certId then
        { studentName := studentName, course := course, grade := grade
          issueDate := timestamp, isRevoked := false, exists_ := true }
      else s.certificates k }

/-- Function `revokeCertificate` (contract lines 60–66): `onlyAuthorized`, the
record must exist and not be revoked yet; then only `isRevoked` is set. -/
def revokeCertificate (s : RegistryState) (sender : Addr) (certId : String) :
    Except String RegistryState :=
  if s.authorizedInstitutions sender = false then
    Except.error "Not authorized"
  else if (s.certificates certId).exists_ = false then
    Except.error "Certificate does not exist"
  else if (s.certificates certId).isRevoked then
    Except.error "Already revoked"
  else
    Except.ok { s with certificates := fun k =>
      if k = certId then { s.certificates certId with isRevoked := true }
      else s.certificates k }

/-- The tuple `verifyCertificate` returns. -/
structure VerifyData where
  studentName : String
  course : String
  grade : String
  issueDate : Nat
  isRevoked : Bool
deriving DecidableEq, Repr

/-- Function `verifyCertificate` (contract lines 68–78): reverts with
"Certificate does not exist" on an absent id, otherwise returns the
stored fields. -/
def verifyCertificate (s : RegistryState) (certId : String) :
    Except String VerifyData :=
  if (s.certificates certId).exists_ = false then
    Except.error "Certificate does not exist"
  else
    let c := s.certificates certId
    Except.ok { studentName := c.studentName, course := c.course
                grade := c.grade, issueDate := c.issueDate
                isRevoked := c.isRevoked }

/-- Function `addInstitution` (contract lines 36–38): `onlyAdmin`. -/
def addInstitution (s : RegistryState) (sender : Addr) (inst : Addr) :
    Except String RegistryState :=
  if sender ≠ s.admin then
    Except.error "Only admin"
  else
    Except.ok { s with authorizedInstitutions := fun a =>
      if a = inst then true else s.authorizedInstitutions a }

/-- One external call to the contract, with its caller and (for issue)
the block timestamp. -/
inductive Op where
  | issue (sender : Addr) (certId studentName course grade : String)
      (timestamp : Nat)
  | revoke (sender : Addr) (certId : String)
  | addInst (sender : Addr) (inst : Addr)

/-- Run one call, propagating the revert. -/
def execOp (s : RegistryState) : Op → Except String RegistryState
  | Op.issue sender cid n c g t => issueCertificate s sender cid n c g t
  | Op.revoke sender cid => revokeCertificate s sender cid
  | Op.addInst sender i => addInstitution s sender i

/-- EVM semantics of a revert: the transaction leaves storage untouched. -/
def applyOp (s : RegistryState) (op : Op) : RegistryState :=
  match execOp s op with
  | Except.ok s2 => s2
  | Except.error _ => s

/-! ## Backend (`server.js`) -/

/-- Does `pat` occur as a contiguous substring?  Models JavaScript
`String.prototype.includes`, which the route handlers use on
`error.message`. -/
def strContainsAux (pat : List Char) : List Char → Bool
  | [] => pat.isEmpty
  | a :: as =>
      ((a :: as).take pat.length == pat) || strContainsAux pat as

/-- JavaScript `s.includes(pat)`. -/
def strContains (s pat : String) : Bool :=
  strContainsAux pat.toList s.toList

/-- A row of the SQLite `certificates` table (backend-side
`LocalRecord`).  The auto-increment `id` and `createdAt` default are not
modelled; `certId` is the lookup key everywhere in the routes. -/
structure LocalRecord where
  certId : String
  studentName : String
  course : String
  grade : String
  issueDate : String
  txHash : Option String
  documentPath : Option String
  documentOriginalName : Option String
  notes : Option String
deriving DecidableEq, Repr

/-- Query `SELECT * FROM certificates WHERE certId = ?` (first match). -/
def dbGet (rows : List LocalRecord) (cid : String) : Option LocalRecord :=
  rows.find? (fun r => r.certId == cid)

/-- Filesystem `unlink` on the uploads directory, viewed as a set of
file names. -/
def fsRemove (files : List String) (p : String) : List String :=
  files.filter (fun q => !(q == p))

/-- Filesystem `rename`-target / write: the name becomes present. -/
def fsAdd (files : List String) (p : String) : List String :=
  p :: fsRemove files p

/-- Node `path.extname` on the common shapes the routes meet:
`"scan.pdf"` ↦ `".pdf"`, a dotless name ↦ `""`. -/
def extname (name : String) : String :=
  match (name.splitOn ".").reverse with
  | e :: _ :: _ => "." ++ e
  | _ => ""

/-- The mutable world the backend routes touch: the chain's contract
storage, the SQLite rows, and the uploads directory. -/
structure ServerState where
  ledger : RegistryState
  rows : List LocalRecord
  files : List String

/-- Whether the RPC transport to the chain works during a route's
contract call.  `down msg` is a network/timeout failure whose
JavaScript-side `error.message` is `msg`. -/
inductive Link where
  | up
  | down (msg : String)
deriving DecidableEq, Repr

/-- A read-only contract call through the transport: when the link is
up it is the contract's own semantics (value or revert message), when
down it throws the transport's message. -/
def callVerify (link : Link) (ledger : RegistryState) (cid : String) :
    Except String VerifyData :=
  match link with
  | Link.up => verifyCertificate ledger cid
  | Link.down m => Except.error m

/-- Response of `GET /api/certificates/verify/:certId`. -/
inductive VerifyResponse where
  /-- 200 with `exists:true` and the blockchain fields, enriched with
  `hasDocument` / `txHash` from the local row. -/
  | found (studentName course grade : String) (issueDate : Nat)
      (isRevoked : Bool) (hasDocument : Bool) (txHash : Option String)
  /-- 200 with `exists:false`. -/
  | notFound
  /-- 500 with the error message. -/
  | serverError (msg : String)
deriving DecidableEq, Repr

/-- Route `GET /api/certificates/verify/:certId` (server.js lines 762–795):
read the chain, enrich from the local row; in the catch block,
`error.message.includes("Certificate does not exist")` selects
`{exists:false}`, anything else is a 500. -/
def verifyRoute (link : Link) (st : ServerState) (cid : String) :
    VerifyResponse :=
  match callVerify link st.ledger cid with
  | Except.ok d =>
      let dbCert := dbGet st.rows cid
      VerifyResponse.found d.studentName d.course d.grade d.issueDate
        d.isRevoked
        (match dbCert with
         | some r => r.documentPath.isSome
         | none => false)
        (match dbCert with
         | some r => r.txHash
         | none => none)
  | Except.error m =>
      if strContains m "Certificate does not exist" then
        VerifyResponse.notFound
      else
        VerifyResponse.serverError m

/-- An uploaded file as multer leaves it for the route handler:
`req.file.path` (the `temp_…` name already written in `uploads/`) and
`req.file.originalname`. -/
structure UploadedFile where
  tempPath : String
  originalname : String
deriving DecidableEq, Repr

/-- Body of `POST /api/certificates/issue` after multer: the three text
fields (pre-trim) and the optional upload. -/
structure IssueReq where
  studentName : String
  course : String
  grade : String
  file : Option UploadedFile
deriving DecidableEq, Repr

/-- Strip leading and trailing whitespace from a character list:
the effect of the validators' `.trim()` sanitizer. -/
def trimChars (l : List Char) : List Char :=
  ((l.dropWhile Char.isWhitespace).reverse.dropWhile Char.isWhitespace).reverse

/-- JavaScript `String.prototype.trim` / the express-validator `.trim()`
sanitizer, as an executable function. -/
def jsTrim (s : String) : String :=
  String.mk (trimChars s.toList)

/-- One validator chain `body(f).trim().notEmpty().isLength({min,max})`
passes. -/
def validLen (s : String) (lo hi : Nat) : Bool :=
  let t := jsTrim s
  (!(t == "")) && (lo ≤ t.length && t.length ≤ hi)

/-- All three validator chains of the issue route pass. -/
def validIssueReq (r : IssueReq) : Bool :=
  validLen r.studentName 2 100 && validLen r.course 2 100 &&
    validLen r.grade 1 50

/-- Response of `POST /api/certificates/issue`. -/
inductive IssueResponse where
  /-- 400 from `handleValidationErrors`. -/
  | validationError
  /-- 200 `{success:true, certId, txHash, hasDocument, …}`. -/
  | success (certId txHash : String) (hasDocument : Bool)
  /-- the catch block fell through to `next(error)` (→ 500). -/
  | failure (msg : String)
deriving DecidableEq, Repr

/-- Observable effects of one issue-route execution, in program order,
for stating the write-ordering guarantee. -/
inductive Ev where
  /-- `contract.issueCertificate(…)` is called. -/
  | ledgerSubmit (certId : String)
  /-- `await tx.wait()` returned: the ledger write is confirmed. -/
  | ledgerConfirm (certId : String)
  /-- `fs.renameSync(temp, uploads/<certId><ext>)`: document persisted. -/
  | docPersist (filename : String)
  /-- `stmt.run(…)`: the LocalRecord row is inserted. -/
  | dbInsert (certId : String)
  /-- catch block: `fs.unlinkSync(req.file.path)`. -/
  | tempUnlink (path : String)
deriving DecidableEq, Repr

/-- Everything the issue route reads from outside its own state: the
transport link, the backend wallet address, `Date.now()` at certId
generation, `block.timestamp` of the ledger write, the ISO clock string
for the row, whether `tx.wait()` confirmed (and its error message if
not), `tx.hash`, and whether each post-confirmation local step —
`fs.renameSync`, `QRCode.toDataURL`, `stmt.run` — succeeds or throws
(with the thrown message): each of these can fail into the catch block
after the ledger write is already confirmed. -/
structure IssueEnv where
  link : Link
  wallet : Addr
  nowMillis : Nat
  chainTime : Nat
  nowIso : String
  waitOk : Bool
  waitMsg : String
  txHash : String
  renameOk : Bool
  renameMsg : String
  qrOk : Bool
  qrMsg : String
  dbOk : Bool
  dbMsg : String
deriving Repr

/-- The certId the route generates: `` `CERT${Date.now()}` ``. -/
def genCertId (env : IssueEnv) : String :=
  "CERT" ++ toString env.nowMillis

/-- Result of one issue-route execution. -/
structure IssueResult where
  state : ServerState
  response : IssueResponse
  trace : List Ev

/-- The catch block of the issue route: delete the temp file if the
request carried one (it is still at `req.file.path`), pass the error
on.  Called with the state as of the throw. -/
def issueCatch (st : ServerState) (req : IssueReq) (cid msg : String) :
    IssueResult :=
  match req.file with
  | some f =>
      { state := { st with files := fsRemove st.files f.tempPath }
        response := IssueResponse.failure msg
        trace := [Ev.ledgerSubmit cid, Ev.tempUnlink f.tempPath] }
  | none =>
      { state := st
        response := IssueResponse.failure msg
        trace := [Ev.ledgerSubmit cid] }

/-- The handler body after `await tx.wait()` has returned (server.js
lines 721–750): rename the upload into place (if any), generate the QR
code, insert the row — each of these can itself throw into the catch
block with the ledger write already confirmed.  If `fs.renameSync`
throws, the temp file is still at `req.file.path`, so the catch unlinks
it; once the rename has happened, `req.file.path` no longer exists and
the catch deletes nothing, leaving the renamed document in place. -/
def issueAfterConfirm (st : ServerState) (req : IssueReq) (env : IssueEnv)
    (cid : String) : IssueResult :=
  match req.file with
  | some f =>
    if env.renameOk = false then
      { state := { st with files := fsRemove st.files f.tempPath }
        response := IssueResponse.failure env.renameMsg
        trace := [Ev.ledgerSubmit cid, Ev.ledgerConfirm cid,
                  Ev.tempUnlink f.tempPath] }
    else
      let newName := cid ++ extname f.originalname
      let st2 : ServerState :=
        { st with files := fsAdd (fsRemove st.files f.tempPath) newName }
      if env.qrOk = false then
        { state := st2
          response := IssueResponse.failure env.qrMsg
          trace := [Ev.ledgerSubmit cid, Ev.ledgerConfirm cid,
                    Ev.docPersist newName] }
      else if env.dbOk = false then
        { state := st2
          response := IssueResponse.failure env.dbMsg
          trace := [Ev.ledgerSubmit cid, Ev.ledgerConfirm cid,
                    Ev.docPersist newName] }
      else
        let row : LocalRecord :=
          { certId := cid, studentName := (jsTrim req.studentName)
            course := (jsTrim req.course), grade := (jsTrim req.grade)
            issueDate := env.nowIso, txHash := some env.txHash
            documentPath := some newName
            documentOriginalName := some f.originalname
            notes := none }
        { state := { st2 with rows := row :: st2.rows }
          response := IssueResponse.success cid env.txHash true
          trace := [Ev.ledgerSubmit cid, Ev.ledgerConfirm cid,
                    Ev.docPersist newName, Ev.dbInsert cid] }
  | none =>
    if env.qrOk = false then
      { state := st
        response := IssueResponse.failure env.qrMsg
        trace := [Ev.ledgerSubmit cid, Ev.ledgerConfirm cid] }
    else if env.dbOk = false then
      { state := st
        response := IssueResponse.failure env.dbMsg
        trace := [Ev.ledgerSubmit cid, Ev.ledgerConfirm cid] }
    else
      let row : LocalRecord :=
        { certId := cid, studentName := (jsTrim req.studentName)
          course := (jsTrim req.course), grade := (jsTrim req.grade)
          issueDate := env.nowIso, txHash := some env.txHash
          documentPath := none, documentOriginalName := none
          notes := none }
      { state := { st with rows := row :: st.rows }
        response := IssueResponse.success cid env.txHash false
        trace := [Ev.ledgerSubmit cid, Ev.ledgerConfirm cid,
                  Ev.dbInsert cid] }

/-- Body of the issue handler once validation has passed and
`certId = CERT<Date.now()>` is fixed: the ledger write is submitted and
awaited; only on confirmed success do the local steps
(`issueAfterConfirm`) run.  Any throw lands in the catch block.  The
validators' `.trim()` sanitizer has already trimmed the body fields the
handler reads. -/
def issueBody (st : ServerState) (req : IssueReq) (env : IssueEnv)
    (cid : String) : IssueResult :=
  match env.link with
    | Link.down m => issueCatch st req cid m
    | Link.up =>
      match issueCertificate st.ledger env.wallet cid
          (jsTrim req.studentName) (jsTrim req.course) (jsTrim req.grade)
          env.chainTime with
      | Except.error m => issueCatch st req cid m
      | Except.ok ledger2 =>
        if env.waitOk = false then
          issueCatch { st with ledger := ledger2 } req cid env.waitMsg
        else
          issueAfterConfirm { st with ledger := ledger2 } req env cid

/-- Route `POST /api/certificates/issue` (server.js lines 699–759):
`handleValidationErrors` replies 400 before the handler body runs;
otherwise the body runs with the generated certId. -/
def issueRoute (st : ServerState) (req : IssueReq) (env : IssueEnv) :
    IssueResult :=
  if validIssueReq req = false then
    { state := st, response := IssueResponse.validationError, trace := [] }
  else
    issueBody st req env (genCertId env)

/-- Response of `DELETE /api/admin/certificates/:certId`. -/
inductive DeleteResponse where
  | notFound
  | success
deriving DecidableEq, Repr

/-- Route `DELETE /api/admin/certificates/:certId` (server.js lines
1052–1078): 404 when no local row; otherwise unlink the row's document
file (if any) and delete the row.  The ledger is never touched. -/
def deleteRoute (st : ServerState) (cid : String) :
    ServerState × DeleteResponse :=
  match dbGet st.rows cid with
  | none => (st, DeleteResponse.notFound)
  | some r =>
      let files2 :=
        match r.documentPath with
        | some p => fsRemove st.files p
        | none => st.files
      let st2 : ServerState :=
        { st with files := files2, rows := st.rows.filter (fun q => !(q.certId == cid)) }
      (st2, DeleteResponse.success)

/-- Response of the two artifact routes (certificate PDF, stamped
document download). -/
inductive ArtifactResponse where
  /-- 200: bytes produced for this certId. -/
  | artifact (certId : String)
  /-- 400 `'Certificate has been revoked'`. -/
  | revokedError
  /-- 404: the chain has no such certificate. -/
  | notFoundChain
  /-- 404: no document / file missing (download route only). -/
  | noDocument
  /-- 500 with the error message. -/
  | serverError (msg : String)
deriving DecidableEq, Repr

/-- Route `GET /api/certificates/:certId/pdf` (server.js lines 809–846):
verify on chain, refuse if `result[4]` (isRevoked), else render the
certificate PDF; catch maps the missing-certificate revert to 404. -/
def pdfRoute (link : Link) (st : ServerState) (cid : String) :
    ArtifactResponse :=
  match callVerify link st.ledger cid with
  | Except.ok d =>
      if d.isRevoked then ArtifactResponse.revokedError
      else ArtifactResponse.artifact cid
  | Except.error m =>
      if strContains m "Certificate does not exist" then
        ArtifactResponse.notFoundChain
      else
        ArtifactResponse.serverError m

/-- Route `GET /api/certificates/download/:certId` (server.js lines 849–938):
verify on chain, refuse if revoked, then require a local row with a
document whose file is present, and send the (stamped) document. -/
def downloadRoute (link : Link) (st : ServerState) (cid : String) :
    ArtifactResponse :=
  match callVerify link st.ledger cid with
  | Except.ok d =>
      if d.isRevoked then ArtifactResponse.revokedError
      else
        match dbGet st.rows cid with
        | none => ArtifactResponse.noDocument
        | some r =>
          match r.documentPath with
          | none => ArtifactResponse.noDocument
          | some p =>
              if st.files.contains p then ArtifactResponse.artifact cid
              else ArtifactResponse.noDocument
  | Except.error m =>
      if strContains m "Certificate does not exist" then
        ArtifactResponse.notFoundChain
      else
        ArtifactResponse.serverError m

/-! ## Concrete states for witnesses -/

/-- Freshly deployed registry, deployer `0`. -/
def regEx : RegistryState := RegistryState.init 0

/-- The registry `regEx` after issuing `CERT1` to Ada Lovelace at chain
time 100. -/
def regEx1 : RegistryState :=
  applyOp regEx (Op.issue 0 "CERT1" "Ada Lovelace" "Computer Science" "A" 100)

/-- The one-certificate ledger after revoking `CERT1`. -/
def regEx2 : RegistryState := applyOp regEx1 (Op.revoke 0 "CERT1")

/-- A concrete backend state: the one-certificate ledger, no local rows,
empty uploads directory. -/
def stEx : ServerState := { ledger := regEx1, rows := [], files := [] }

/-- Contract states reachable from deployment by a sequence of external
calls (reverted calls leave storage unchanged). -/
def reachFrom (deployer : Addr) (ops : List Op) : RegistryState :=
  ops.foldl applyOp (RegistryState.init deployer)

/-- A revoked record exists (no call ever writes `isRevoked = true` into
an absent record). -/
def RevokedRecordsExist (s : RegistryState) : Prop :=
  ∀ k, (s.certificates k).isRevoked = true → (s.certificates k).exists_ = true

/-! ## Claims about the contract -/

/-- Claim C1: A successful `issueCertificate` for a fresh `certId` followed by
`verifyCertificate` on that id returns the same studentName, course and
grade with `isRevoked = false` (and the write-time timestamp). -/
theorem issue_then_verify_roundtrip
    (s s2 : RegistryState) (sender : Addr)
    (cid n c g : String) (t : Nat)
    (h : issueCertificate s sender cid n c g t = Except.ok s2) :
    verifyCertificate s2 cid =
      Except.ok { studentName := n, course := c, grade := g
                  issueDate := t, isRevoked := false } := by
  unfold issueCertificate at h
  split at h
  · cases h
  · split at h
    · cases h
    · injection h with hs
      subst hs
      simp [verifyCertificate]

/-- Witness for C1: the concrete roundtrip on a fresh registry. -/
theorem issue_then_verify_roundtrip_witness :
    verifyCertificate regEx1 "CERT1" =
      Except.ok { studentName := "Ada Lovelace", course := "Computer Science"
                  grade := "A", issueDate := 100, isRevoked := false } :=
  issue_then_verify_roundtrip regEx regEx1 0
    "CERT1" "Ada Lovelace" "Computer Science" "A" 100 rfl

/-- Claim C3: Issuing an already-present `certId` again (authorized caller)
reverts with the conflict message `"Already exists"` and, the revert
rolling the transaction back, leaves the whole storage unchanged; and
two issuances racing on the same fresh `certId` — i.e. serialized by the
chain in either order — give exactly one success and one conflict. -/
theorem duplicate_issue_conflict
    (s : RegistryState) (sender sender2 : Addr)
    (cid n c g n2 c2 g2 : String) (t t2 : Nat)
    (hauth : s.authorizedInstitutions sender = true)
    (hauth2 : s.authorizedInstitutions sender2 = true) :
    ((s.certificates cid).exists_ = true →
      issueCertificate s sender2 cid n2 c2 g2 t2 =
        Except.error "Already exists" ∧
      applyOp s (Op.issue sender2 cid n2 c2 g2 t2) = s) ∧
    ((s.certificates cid).exists_ = false →
      ∃ s1, issueCertificate s sender cid n c g t = Except.ok s1 ∧
        issueCertificate s1 sender2 cid n2 c2 g2 t2 =
          Except.error "Already exists") := by
  constructor
  · intro hex
    have herr : issueCertificate s sender2 cid n2 c2 g2 t2 =
        Except.error "Already exists" := by
      unfold issueCertificate
      rw [hauth2]
      simp [hex]
    refine ⟨herr, ?_⟩
    simp [applyOp, execOp, herr]
  · intro hfresh
    refine ⟨{ s with certificates := fun k =>
        if k = cid then
          { studentName := n, course := c, grade := g
            issueDate := t, isRevoked := false, exists_ := true }
        else s.certificates k }, ?_, ?_⟩
    · unfold issueCertificate
      rw [hauth, hfresh]
      simp
    · unfold issueCertificate
      simp [hauth2]

/-- Witness for C3: on the registry already holding `CERT1`, re-issuing
`CERT1` conflicts and changes nothing; and from the fresh registry the
two racing issuances of `CERT1` give one success then one conflict. -/
theorem duplicate_issue_conflict_witness :
    (issueCertificate regEx1 0 "CERT1" "B" "Maths" "C" 200 =
        Except.error "Already exists" ∧
      applyOp regEx1 (Op.issue 0 "CERT1" "B" "Maths" "C" 200) = regEx1) ∧
    (∃ s1, issueCertificate regEx 0 "CERT1" "Ada Lovelace" "Computer Science" "A" 100 =
        Except.ok s1 ∧
      issueCertificate s1 0 "CERT1" "B" "Maths" "C" 200 =
        Except.error "Already exists") :=
  ⟨(duplicate_issue_conflict regEx1 0 0 "CERT1" "Ada Lovelace" "Computer Science"
      "A" "B" "Maths" "C" 100 200 rfl rfl).1 rfl,
   (duplicate_issue_conflict regEx 0 0 "CERT1" "Ada Lovelace" "Computer Science"
      "A" "B" "Maths" "C" 100 200 rfl rfl).2 rfl⟩

/-- Claim C7: Revoking an existing, unrevoked certificate succeeds and
changes only the `isRevoked` flag: verifying afterwards returns
`isRevoked = true` with studentName, course, grade and issueDate exactly
as stored before, every other id's record is untouched, and the access
lists are untouched. -/
theorem revoke_changes_only_flag
    (s : RegistryState) (sender : Addr) (cid : String)
    (hauth : s.authorizedInstitutions sender = true)
    (hex : (s.certificates cid).exists_ = true)
    (hnr : (s.certificates cid).isRevoked = false) :
    ∃ s2, revokeCertificate s sender cid = Except.ok s2 ∧
      verifyCertificate s2 cid = Except.ok
        { studentName := (s.certificates cid).studentName
          course := (s.certificates cid).course
          grade := (s.certificates cid).grade
          issueDate := (s.certificates cid).issueDate
          isRevoked := true } ∧
      (∀ k, k ≠ cid → s2.certificates k = s.certificates k) ∧
      s2.authorizedInstitutions = s.authorizedInstitutions ∧
      s2.admin = s.admin := by
  refine ⟨{ s with certificates := fun k =>
      if k = cid then { s.certificates cid with isRevoked := true }
      else s.certificates k }, ?_, ?_, ?_, rfl, rfl⟩
  · unfold revokeCertificate
    rw [hauth, hex, hnr]
    simp
  · simp [verifyCertificate, hex]
  · intro k hk
    simp [hk]

/-- Witness for C7: revoking `CERT1` on the one-certificate registry. -/
theorem revoke_changes_only_flag_witness :
    ∃ s2, revokeCertificate regEx1 0 "CERT1" = Except.ok s2 ∧
      verifyCertificate s2 "CERT1" = Except.ok
        { studentName := (regEx1.certificates "CERT1").studentName
          course := (regEx1.certificates "CERT1").course
          grade := (regEx1.certificates "CERT1").grade
          issueDate := (regEx1.certificates "CERT1").issueDate
          isRevoked := true } ∧
      (∀ k, k ≠ "CERT1" → s2.certificates k = regEx1.certificates k) ∧
      s2.authorizedInstitutions = regEx1.authorizedInstitutions ∧
      s2.admin = regEx1.admin :=
  revoke_changes_only_flag regEx1 0 "CERT1" rfl rfl rfl

/-! ### Reachable ledger states and the one-way revocation flag -/

/-- What one call can do to the record stored at key `k`: leave it
alone, create it fresh (issue on an absent id), or set its
`isRevoked` flag (revoke on a present id). -/
theorem applyOp_cert_cases (s : RegistryState) (op : Op) (k : String) :
    (applyOp s op).certificates k = s.certificates k ∨
    (∃ sender cid n c g t, op = Op.issue sender cid n c g t ∧ k = cid ∧
      (s.certificates k).exists_ = false ∧
      (applyOp s op).certificates k =
        { studentName := n, course := c, grade := g
          issueDate := t, isRevoked := false, exists_ := true }) ∨
    (∃ sender cid, op = Op.revoke sender cid ∧ k = cid ∧
      (s.certificates k).exists_ = true ∧
      (applyOp s op).certificates k =
        { s.certificates k with isRevoked := true }) := by
  cases op with
  | issue sender cid n c g t =>
    by_cases h1 : s.authorizedInstitutions sender = false
    · left; simp [applyOp, execOp, issueCertificate, h1]
    · by_cases h2 : (s.certificates cid).exists_ = true
      · left; simp [applyOp, execOp, issueCertificate, h1, h2]
      · by_cases hk : k = cid
        · subst hk
          right; left
          refine ⟨sender, k, n, c, g, t, rfl, rfl, by simpa using h2, ?_⟩
          simp [applyOp, execOp, issueCertificate, h1, h2]
        · left; simp [applyOp, execOp, issueCertificate, h1, h2, hk]
  | revoke sender cid =>
    by_cases h1 : s.authorizedInstitutions sender = false
    · left; simp [applyOp, execOp, revokeCertificate, h1]
    · by_cases h2 : (s.certificates cid).exists_ = false
      · left; simp [applyOp, execOp, revokeCertificate, h1, h2]
      · by_cases h3 : (s.certificates cid).isRevoked = true
        · left; simp [applyOp, execOp, revokeCertificate, h1, h2, h3]
        · by_cases hk : k = cid
          · subst hk
            right; right
            refine ⟨sender, k, rfl, rfl, by simpa using h2, ?_⟩
            simp [applyOp, execOp, revokeCertificate, h1, h2, h3]
          · left; simp [applyOp, execOp, revokeCertificate, h1, h2, h3, hk]
  | addInst sender i =>
    left
    by_cases h1 : sender ≠ s.admin
    · simp [applyOp, execOp, addInstitution, h1]
    · simp [applyOp, execOp, addInstitution, h1]

/-- One call preserves `RevokedRecordsExist`. -/
theorem applyOp_preserves_revokedRecordsExist (s : RegistryState) (op : Op)
    (h : RevokedRecordsExist s) : RevokedRecordsExist (applyOp s op) := by
  intro k hrev
  rcases applyOp_cert_cases s op k with heq |
      ⟨sender, cid, n, c, g, t, _, _, _, hnew⟩ | ⟨sender, cid, _, _, hex, hnew⟩
  · rw [heq] at hrev ⊢
    exact h k hrev
  · rw [hnew]
  · rw [hnew]
    exact hex

/-- Every reachable contract state satisfies `RevokedRecordsExist`. -/
theorem reach_revokedRecordsExist (d : Addr) (ops : List Op) :
    RevokedRecordsExist (reachFrom d ops) := by
  have main : ∀ (l : List Op) (s : RegistryState), RevokedRecordsExist s →
      RevokedRecordsExist (l.foldl applyOp s) := by
    intro l
    induction l with
    | nil => intro s hs; exact hs
    | cons op l ih =>
        intro s hs
        exact ih _ (applyOp_preserves_revokedRecordsExist s op hs)
  refine main ops _ ?_
  intro k h
  simp [RegistryState.init, Certificate.default] at h

/-- On a state satisfying the reachability invariant, no call un-revokes
a record. -/
theorem applyOp_revoked_mono (s : RegistryState) (op : Op) (cid : String)
    (hinv : RevokedRecordsExist s)
    (h : (s.certificates cid).isRevoked = true) :
    ((applyOp s op).certificates cid).isRevoked = true := by
  rcases applyOp_cert_cases s op cid with heq |
      ⟨sender, cid', n, c, g, t, _, _, hfresh, _⟩ | ⟨sender, cid', _, _, _, hnew⟩
  · rw [heq]; exact h
  · exact absurd (hinv cid h) (by simp [hfresh])
  · rw [hnew]

/-- Claim C2: On every reachable ledger state: a record is created with
`isRevoked = false`; no call ever turns `isRevoked` from true back to
false; and `revokeCertificate` on an absent or already-revoked record
reverts (some error) and leaves storage unchanged. -/
theorem revoked_flag_one_way (d : Addr) (ops : List Op) (cid : String) :
    (∀ sender n c g t s2,
        issueCertificate (reachFrom d ops) sender cid n c g t = Except.ok s2 →
        (s2.certificates cid).isRevoked = false) ∧
    (∀ op, ((reachFrom d ops).certificates cid).isRevoked = true →
        ((applyOp (reachFrom d ops) op).certificates cid).isRevoked = true) ∧
    (∀ sender,
        ((reachFrom d ops).certificates cid).exists_ = false ∨
          ((reachFrom d ops).certificates cid).isRevoked = true →
        applyOp (reachFrom d ops) (Op.revoke sender cid) = reachFrom d ops ∧
        ∃ m, revokeCertificate (reachFrom d ops) sender cid =
          Except.error m) := by
  refine ⟨?_, ?_, ?_⟩
  · intro sender n c g t s2 h
    unfold issueCertificate at h
    split at h
    · cases h
    · split at h
      · cases h
      · injection h with hs
        subst hs
        simp
  · intro op h
    exact applyOp_revoked_mono _ op cid (reach_revokedRecordsExist d ops) h
  · intro sender hbad
    have herr : ∃ m, revokeCertificate (reachFrom d ops) sender cid =
        Except.error m := by
      unfold revokeCertificate
      by_cases h1 : (reachFrom d ops).authorizedInstitutions sender = false
      · exact ⟨"Not authorized", by simp [h1]⟩
      · by_cases h2 : ((reachFrom d ops).certificates cid).exists_ = false
        · exact ⟨"Certificate does not exist", by simp [h1, h2]⟩
        · rcases hbad with hb | hb
          · exact absurd hb h2
          · exact ⟨"Already revoked", by simp [h1, h2, hb]⟩
    obtain ⟨m, hm⟩ := herr
    exact ⟨by simp [applyOp, execOp, hm], ⟨m, hm⟩⟩

/-- Witness for C2: after issuing and revoking `CERT1`, revoking it a
second time reverts and changes nothing. -/
theorem revoked_flag_one_way_witness :
    applyOp
        (reachFrom 0 [Op.issue 0 "CERT1" "Ada Lovelace" "Computer Science" "A" 100,
          Op.revoke 0 "CERT1"])
        (Op.revoke 0 "CERT1") =
      reachFrom 0 [Op.issue 0 "CERT1" "Ada Lovelace" "Computer Science" "A" 100,
        Op.revoke 0 "CERT1"] ∧
    ∃ m, revokeCertificate
        (reachFrom 0 [Op.issue 0 "CERT1" "Ada Lovelace" "Computer Science" "A" 100,
          Op.revoke 0 "CERT1"]) 0 "CERT1" =
      Except.error m :=
  (revoked_flag_one_way 0
      [Op.issue 0 "CERT1" "Ada Lovelace" "Computer Science" "A" 100,
        Op.revoke 0 "CERT1"] "CERT1").2.2 0 (Or.inr rfl)

/-! ## Claims about the backend routes -/

/-- Claim C4: The verify route answers `{exists:false}` exactly when the
ledger reports the id missing: a never-issued id gets not-found; when
the transport is down the route answers a 500 with the transport's
message (whose text, for a real network failure, is not the contract's
missing-certificate revert reason) — never not-found; and on a working
link not-found is only answered for an id absent from the ledger. -/
theorem verify_notfound_only_when_missing
    (st : ServerState) (cid netMsg : String)
    (hnet : strContains netMsg "Certificate does not exist" = false) :
    ((st.ledger.certificates cid).exists_ = false →
      verifyRoute Link.up st cid = VerifyResponse.notFound) ∧
    (verifyRoute (Link.down netMsg) st cid =
        VerifyResponse.serverError netMsg ∧
      verifyRoute (Link.down netMsg) st cid ≠ VerifyResponse.notFound) ∧
    (verifyRoute Link.up st cid = VerifyResponse.notFound →
      (st.ledger.certificates cid).exists_ = false) := by
  refine ⟨?_, ⟨?_, ?_⟩, ?_⟩
  · intro hmiss
    simp [verifyRoute, callVerify, verifyCertificate, hmiss, strContains,
      strContainsAux]
  · simp [verifyRoute, callVerify, hnet]
  · simp [verifyRoute, callVerify, hnet]
  · intro hnf
    by_cases hex : (st.ledger.certificates cid).exists_ = false
    · exact hex
    · simp [verifyRoute, callVerify, verifyCertificate, hex] at hnf

/-- Witness for C4: on the one-certificate backend state, a never-issued
id verifies as not-found, and a downed transport gives a 500. -/
theorem verify_notfound_only_when_missing_witness :
    verifyRoute Link.up stEx "CERT-does-not-exist" =
        VerifyResponse.notFound ∧
    verifyRoute (Link.down "connect ECONNREFUSED") stEx
        "CERT-does-not-exist" =
      VerifyResponse.serverError "connect ECONNREFUSED" :=
  ⟨(verify_notfound_only_when_missing stEx "CERT-does-not-exist"
      "connect ECONNREFUSED" (by decide)).1 rfl,
    (verify_notfound_only_when_missing stEx "CERT-does-not-exist"
      "connect ECONNREFUSED" (by decide)).2.1.1⟩

/-- Nothing survives its own removal from the uploads directory. -/
theorem not_mem_fsRemove (files : List String) (p : String) :
    p ∉ fsRemove files p := by
  simp [fsRemove]

/-- Claim C5: When the ledger write of an issuance fails — transport down,
or the contract reverts (duplicate id, unauthorized caller) — the route
inserts no row, leaves the ledger as it was, answers with the error, and
the only filesystem change is deleting the uploaded temp file (in
particular nothing is persisted under a certId-derived name). -/
theorem ledger_failure_discards_local_writes
    (st : ServerState) (req : IssueReq) (env : IssueEnv) (m : String)
    (hval : validIssueReq req = true)
    (hfail : env.link = Link.down m ∨
      (env.link = Link.up ∧
        issueCertificate st.ledger env.wallet (genCertId env)
          (jsTrim req.studentName) (jsTrim req.course) (jsTrim req.grade) env.chainTime =
          Except.error m)) :
    (issueRoute st req env).state.rows = st.rows ∧
    (issueRoute st req env).state.ledger = st.ledger ∧
    (issueRoute st req env).response = IssueResponse.failure m ∧
    (∀ f, req.file = some f →
      (issueRoute st req env).state.files = fsRemove st.files f.tempPath ∧
      f.tempPath ∉ (issueRoute st req env).state.files) ∧
    (req.file = none → (issueRoute st req env).state.files = st.files) := by
  have hroute : issueRoute st req env =
      issueCatch st req (genCertId env) m := by
    unfold issueRoute issueBody
    rcases hfail with hdown | ⟨hup, herr⟩
    · rw [hdown]
      simp [hval]
    · rw [hup]
      simp [hval, herr]
  rw [hroute]
  refine ⟨?_, ?_, ?_, ?_, ?_⟩
  · cases hfile : req.file <;> simp [issueCatch, hfile]
  · cases hfile : req.file <;> simp [issueCatch, hfile]
  · cases hfile : req.file <;> simp [issueCatch, hfile]
  · intro f hf
    exact ⟨by simp [issueCatch, hf],
      by simp only [issueCatch, hf]; exact not_mem_fsRemove st.files f.tempPath⟩
  · intro hf
    simp [issueCatch, hf]

/-- Witness for C5: issuing `CERT1` again (already on the ledger) with a
pending upload `temp_1.pdf` deletes the temp file and persists nothing. -/
theorem ledger_failure_discards_local_writes_witness :
    (issueRoute
        { ledger := regEx1, rows := [], files := ["temp_1.pdf"] }
        { studentName := "Bob", course := "Maths", grade := "B"
          file := some { tempPath := "temp_1.pdf", originalname := "scan.pdf" } }
        { link := Link.up, wallet := 0, nowMillis := 1, chainTime := 100
          nowIso := "t", waitOk := true, waitMsg := "", txHash := "0x1", renameOk := true, renameMsg := "", qrOk := true, qrMsg := "", dbOk := true, dbMsg := "" }).state.rows =
      [] ∧
    (issueRoute
        { ledger := regEx1, rows := [], files := ["temp_1.pdf"] }
        { studentName := "Bob", course := "Maths", grade := "B"
          file := some { tempPath := "temp_1.pdf", originalname := "scan.pdf" } }
        { link := Link.up, wallet := 0, nowMillis := 1, chainTime := 100
          nowIso := "t", waitOk := true, waitMsg := "", txHash := "0x1", renameOk := true, renameMsg := "", qrOk := true, qrMsg := "", dbOk := true, dbMsg := "" }).response =
      IssueResponse.failure "Already exists" := by
  have h := ledger_failure_discards_local_writes
    { ledger := regEx1, rows := [], files := ["temp_1.pdf"] }
    { studentName := "Bob", course := "Maths", grade := "B"
      file := some { tempPath := "temp_1.pdf", originalname := "scan.pdf" } }
    { link := Link.up, wallet := 0, nowMillis := 1, chainTime := 100
      nowIso := "t", waitOk := true, waitMsg := "", txHash := "0x1", renameOk := true, renameMsg := "", qrOk := true, qrMsg := "", dbOk := true, dbMsg := "" }
    "Already exists" (by decide) (Or.inr ⟨rfl, rfl⟩)
  exact ⟨h.1, h.2.2.1⟩

/-- The possible outcomes of one issue-route execution: validation
rejection with no effects; a failure before the ledger write confirmed,
whose trace stops at the submit (plus the temp-file cleanup); a failure
after confirmation, in one of the three post-confirm throw points
(rename, QR generation, row insert — the last two possibly with the
document already renamed into place); or one of the two success traces.
In every shape that contains a local write, the confirm precedes it. -/
theorem issueRoute_shape (st : ServerState) (req : IssueReq)
    (env : IssueEnv) :
    ((issueRoute st req env).response = IssueResponse.validationError ∧
      (issueRoute st req env).trace = []) ∨
    (∃ m, (issueRoute st req env).response = IssueResponse.failure m ∧
      ((issueRoute st req env).trace = [Ev.ledgerSubmit (genCertId env)] ∨
        ∃ p, (issueRoute st req env).trace =
          [Ev.ledgerSubmit (genCertId env), Ev.tempUnlink p])) ∨
    (∃ m, (issueRoute st req env).response = IssueResponse.failure m ∧
      ((issueRoute st req env).trace =
          [Ev.ledgerSubmit (genCertId env), Ev.ledgerConfirm (genCertId env)] ∨
        (∃ p, (issueRoute st req env).trace =
          [Ev.ledgerSubmit (genCertId env), Ev.ledgerConfirm (genCertId env),
            Ev.tempUnlink p]) ∨
        (∃ fn, (issueRoute st req env).trace =
          [Ev.ledgerSubmit (genCertId env), Ev.ledgerConfirm (genCertId env),
            Ev.docPersist fn]))) ∨
    (∃ tx, (issueRoute st req env).response =
        IssueResponse.success (genCertId env) tx false ∧
      (issueRoute st req env).trace =
        [Ev.ledgerSubmit (genCertId env), Ev.ledgerConfirm (genCertId env),
          Ev.dbInsert (genCertId env)]) ∨
    (∃ tx fn, (issueRoute st req env).response =
        IssueResponse.success (genCertId env) tx true ∧
      (issueRoute st req env).trace =
        [Ev.ledgerSubmit (genCertId env), Ev.ledgerConfirm (genCertId env),
          Ev.docPersist fn, Ev.dbInsert (genCertId env)]) := by
  by_cases hval : validIssueReq req = false
  · left
    simp [issueRoute, hval]
  · have hcatch : ∀ (st1 : ServerState) (m : String),
        (issueCatch st1 req (genCertId env) m).response =
          IssueResponse.failure m ∧
        ((issueCatch st1 req (genCertId env) m).trace =
            [Ev.ledgerSubmit (genCertId env)] ∨
          ∃ p, (issueCatch st1 req (genCertId env) m).trace =
            [Ev.ledgerSubmit (genCertId env), Ev.tempUnlink p]) := by
      intro st1 m
      cases hf : req.file with
      | none => exact ⟨by simp [issueCatch, hf], Or.inl (by simp [issueCatch, hf])⟩
      | some f =>
          exact ⟨by simp [issueCatch, hf],
            Or.inr ⟨f.tempPath, by simp [issueCatch, hf]⟩⟩
    have hroute : issueRoute st req env = issueBody st req env (genCertId env) := by
      simp [issueRoute, hval]
    rw [hroute]
    cases hlink : env.link with
    | down m =>
        have hb : issueBody st req env (genCertId env) =
            issueCatch st req (genCertId env) m := by
          unfold issueBody
          rw [hlink]
        rw [hb]
        exact Or.inr (Or.inl ⟨m, hcatch st m⟩)
    | up =>
      cases hi : issueCertificate st.ledger env.wallet (genCertId env)
          (jsTrim req.studentName) (jsTrim req.course) (jsTrim req.grade)
          env.chainTime with
      | error m =>
          have hb : issueBody st req env (genCertId env) =
              issueCatch st req (genCertId env) m := by
            unfold issueBody
            rw [hlink, hi]
          rw [hb]
          exact Or.inr (Or.inl ⟨m, hcatch st m⟩)
      | ok ledger2 =>
        by_cases hw : env.waitOk = false
        · have hb : issueBody st req env (genCertId env) =
              issueCatch { st with ledger := ledger2 } req (genCertId env)
                env.waitMsg := by
            unfold issueBody
            rw [hlink, hi]
            simp [hw]
          rw [hb]
          exact Or.inr (Or.inl ⟨env.waitMsg, hcatch _ env.waitMsg⟩)
        · have hb : issueBody st req env (genCertId env) =
              issueAfterConfirm { st with ledger := ledger2 } req env
                (genCertId env) := by
            unfold issueBody
            rw [hlink, hi]
            simp [hw]
          rw [hb]
          cases hf : req.file with
          | some f =>
            by_cases hrn : env.renameOk = false
            · refine Or.inr (Or.inr (Or.inl ⟨env.renameMsg, ?_,
                Or.inr (Or.inl ⟨f.tempPath, ?_⟩)⟩)) <;>
                simp [issueAfterConfirm, hf, hrn]
            · by_cases hqr : env.qrOk = false
              · refine Or.inr (Or.inr (Or.inl ⟨env.qrMsg, ?_, Or.inr (Or.inr
                  ⟨genCertId env ++ extname f.originalname, ?_⟩)⟩)) <;>
                  simp [issueAfterConfirm, hf, hrn, hqr]
              · by_cases hdb : env.dbOk = false
                · refine Or.inr (Or.inr (Or.inl ⟨env.dbMsg, ?_, Or.inr (Or.inr
                    ⟨genCertId env ++ extname f.originalname, ?_⟩)⟩)) <;>
                    simp [issueAfterConfirm, hf, hrn, hqr, hdb]
                · refine Or.inr (Or.inr (Or.inr (Or.inr
                    ⟨env.txHash, genCertId env ++ extname f.originalname,
                      ?_, ?_⟩))) <;>
                    simp [issueAfterConfirm, hf, hrn, hqr, hdb]
          | none =>
            by_cases hqr : env.qrOk = false
            · refine Or.inr (Or.inr (Or.inl ⟨env.qrMsg, ?_, Or.inl ?_⟩)) <;>
                simp [issueAfterConfirm, hf, hqr]
            · by_cases hdb : env.dbOk = false
              · refine Or.inr (Or.inr (Or.inl ⟨env.dbMsg, ?_, Or.inl ?_⟩)) <;>
                  simp [issueAfterConfirm, hf, hqr, hdb]
              · refine Or.inr (Or.inr (Or.inr (Or.inl
                  ⟨env.txHash, ?_, ?_⟩))) <;>
                  simp [issueAfterConfirm, hf, hqr, hdb]

/-- Claim C6: In every execution of the issue route, the ledger write is
confirmed strictly before the row insert and before the document rename
(the trace is ordered `submit … confirm … persist/insert`); and an
execution whose trace carries no confirmation — the write was never
submitted, reverted, or `tx.wait()` failed — contains no row insert and
no document rename: the local mirror is never written speculatively
before ledger confirmation.  (After a confirmed write, a later local
step can still throw, leaving a failure response with the document
already persisted — the spec's accepted ledger-ok/local-fail
degradation — so the guarantee is ordering, not atomicity.) -/
theorem ledger_write_completes_before_local_writes
    (st : ServerState) (req : IssueReq) (env : IssueEnv) :
    (Ev.dbInsert (genCertId env) ∈ (issueRoute st req env).trace →
      ∃ i j, i < j ∧
        (issueRoute st req env).trace.get? i =
          some (Ev.ledgerConfirm (genCertId env)) ∧
        (issueRoute st req env).trace.get? j =
          some (Ev.dbInsert (genCertId env))) ∧
    (∀ fn, Ev.docPersist fn ∈ (issueRoute st req env).trace →
      ∃ i j, i < j ∧
        (issueRoute st req env).trace.get? i =
          some (Ev.ledgerConfirm (genCertId env)) ∧
        (issueRoute st req env).trace.get? j = some (Ev.docPersist fn)) ∧
    (Ev.ledgerConfirm (genCertId env) ∉ (issueRoute st req env).trace →
      Ev.dbInsert (genCertId env) ∉ (issueRoute st req env).trace ∧
      ∀ fn, Ev.docPersist fn ∉ (issueRoute st req env).trace) := by
  rcases issueRoute_shape st req env with ⟨hr, ht⟩ |
      ⟨m, hr, ht | ⟨p, ht⟩⟩ |
      ⟨m, hr, ht | ⟨p, ht⟩ | ⟨fn, ht⟩⟩ |
      ⟨tx, hr, ht⟩ | ⟨tx, fn, hr, ht⟩ <;>
    rw [ht]
  · exact ⟨by simp, by simp, fun _ => ⟨by simp, by simp⟩⟩
  · exact ⟨by simp, by simp, fun _ => ⟨by simp, by simp⟩⟩
  · exact ⟨by simp, by simp, fun _ => ⟨by simp, by simp⟩⟩
  · exact ⟨by simp, by simp, fun hnc => absurd (by simp) hnc⟩
  · exact ⟨by simp, by simp, fun hnc => absurd (by simp) hnc⟩
  · refine ⟨by simp, ?_, fun hnc => absurd (by simp) hnc⟩
    intro fn2 hfn
    have : fn2 = fn := by
      simpa using hfn
    subst this
    exact ⟨1, 2, by omega, rfl, rfl⟩
  · exact ⟨fun _ => ⟨1, 2, by omega, rfl, rfl⟩, by simp,
      fun hnc => absurd (by simp) hnc⟩
  · refine ⟨fun _ => ⟨1, 3, by omega, rfl, rfl⟩, ?_,
      fun hnc => absurd (by simp) hnc⟩
    intro fn2 hfn
    have : fn2 = fn := by
      simpa using hfn
    subst this
    exact ⟨1, 2, by omega, rfl, rfl⟩

/-- Witness for C6: a concrete successful issuance with a document; the
confirm sits at index 1 of the trace, the insert at index 3. -/
theorem ledger_write_completes_before_local_writes_witness :
    ∃ i j, i < j ∧
      (issueRoute
          { ledger := regEx, rows := [], files := ["temp_1.pdf"] }
          { studentName := "Bob", course := "Maths", grade := "B"
            file := some { tempPath := "temp_1.pdf", originalname := "scan.pdf" } }
          { link := Link.up, wallet := 0, nowMillis := 2, chainTime := 100
            nowIso := "t", waitOk := true, waitMsg := "", txHash := "0x1", renameOk := true, renameMsg := "", qrOk := true, qrMsg := "", dbOk := true, dbMsg := "" }).trace.get? i =
        some (Ev.ledgerConfirm "CERT2") ∧
      (issueRoute
          { ledger := regEx, rows := [], files := ["temp_1.pdf"] }
          { studentName := "Bob", course := "Maths", grade := "B"
            file := some { tempPath := "temp_1.pdf", originalname := "scan.pdf" } }
          { link := Link.up, wallet := 0, nowMillis := 2, chainTime := 100
            nowIso := "t", waitOk := true, waitMsg := "", txHash := "0x1", renameOk := true, renameMsg := "", qrOk := true, qrMsg := "", dbOk := true, dbMsg := "" }).trace.get? j =
        some (Ev.dbInsert "CERT2") :=
  (ledger_write_completes_before_local_writes
      { ledger := regEx, rows := [], files := ["temp_1.pdf"] }
      { studentName := "Bob", course := "Maths", grade := "B"
        file := some { tempPath := "temp_1.pdf", originalname := "scan.pdf" } }
      { link := Link.up, wallet := 0, nowMillis := 2, chainTime := 100
        nowIso := "t", waitOk := true, waitMsg := "", txHash := "0x1", renameOk := true, renameMsg := "", qrOk := true, qrMsg := "", dbOk := true, dbMsg := "" }).1
    (by decide)

/-- Lemma: `validLen` unpacked into its three conditions. -/
theorem validLen_true_iff (s : String) (lo hi : Nat) :
    validLen s lo hi = true ↔
      (¬jsTrim s = "" ∧ lo ≤ (jsTrim s).length ∧ (jsTrim s).length ≤ hi) := by
  unfold validLen
  simp [Bool.and_eq_true]

/-- Claim C8: A request whose trimmed studentName or course falls outside
2–100 characters, or whose trimmed grade falls outside 1–50 characters,
is answered with the validation error and nothing else happens: the
whole server state (ledger, rows, files) is untouched and the trace is
empty — no ledger write, no row insert, no persisted document. -/
theorem validation_rejects_before_any_write
    (st : ServerState) (req : IssueReq) (env : IssueEnv)
    (hbad : (jsTrim req.studentName).length < 2 ∨
      100 < (jsTrim req.studentName).length ∨
      (jsTrim req.course).length < 2 ∨ 100 < (jsTrim req.course).length ∨
      (jsTrim req.grade).length < 1 ∨ 50 < (jsTrim req.grade).length) :
    (issueRoute st req env).response = IssueResponse.validationError ∧
    (issueRoute st req env).state = st ∧
    (issueRoute st req env).trace = [] := by
  have hval : validIssueReq req = false := by
    cases hv : validIssueReq req
    · rfl
    · exfalso
      unfold validIssueReq at hv
      rw [Bool.and_eq_true, Bool.and_eq_true] at hv
      obtain ⟨⟨hn, hc⟩, hg⟩ := hv
      rw [validLen_true_iff] at hn hc hg
      rcases hbad with h | h | h | h | h | h
      · exact absurd hn.2.1 (by omega)
      · exact absurd hn.2.2 (by omega)
      · exact absurd hc.2.1 (by omega)
      · exact absurd hc.2.2 (by omega)
      · exact absurd hg.2.1 (by omega)
      · exact absurd hg.2.2 (by omega)
  refine ⟨?_, ?_, ?_⟩ <;> simp [issueRoute, hval]

/-- Witness for C8: a one-letter student name is rejected with no
effect on a concrete state. -/
theorem validation_rejects_before_any_write_witness :
    (issueRoute stEx
        { studentName := "A", course := "Maths", grade := "B", file := none }
        { link := Link.up, wallet := 0, nowMillis := 3, chainTime := 100
          nowIso := "t", waitOk := true, waitMsg := "", txHash := "0x1", renameOk := true, renameMsg := "", qrOk := true, qrMsg := "", dbOk := true, dbMsg := "" }).response =
      IssueResponse.validationError ∧
    (issueRoute stEx
        { studentName := "A", course := "Maths", grade := "B", file := none }
        { link := Link.up, wallet := 0, nowMillis := 3, chainTime := 100
          nowIso := "t", waitOk := true, waitMsg := "", txHash := "0x1", renameOk := true, renameMsg := "", qrOk := true, qrMsg := "", dbOk := true, dbMsg := "" }).state =
      stEx ∧
    (issueRoute stEx
        { studentName := "A", course := "Maths", grade := "B", file := none }
        { link := Link.up, wallet := 0, nowMillis := 3, chainTime := 100
          nowIso := "t", waitOk := true, waitMsg := "", txHash := "0x1", renameOk := true, renameMsg := "", qrOk := true, qrMsg := "", dbOk := true, dbMsg := "" }).trace =
      [] :=
  validation_rejects_before_any_write stEx
    { studentName := "A", course := "Maths", grade := "B", file := none }
    { link := Link.up, wallet := 0, nowMillis := 3, chainTime := 100
      nowIso := "t", waitOk := true, waitMsg := "", txHash := "0x1", renameOk := true, renameMsg := "", qrOk := true, qrMsg := "", dbOk := true, dbMsg := "" }
    (Or.inl (by decide))

/-- Claim C9: Deleting a certId's LocalRecord removes the database row and
its document file, answers success, and leaves the ledger untouched: a
subsequent ledger verify returns exactly what it returned before. -/
theorem delete_local_only
    (st : ServerState) (cid : String) (r : LocalRecord)
    (hr : dbGet st.rows cid = some r) :
    (deleteRoute st cid).2 = DeleteResponse.success ∧
    dbGet (deleteRoute st cid).1.rows cid = none ∧
    (∀ p, r.documentPath = some p → p ∉ (deleteRoute st cid).1.files) ∧
    (deleteRoute st cid).1.ledger = st.ledger ∧
    verifyCertificate (deleteRoute st cid).1.ledger cid =
      verifyCertificate st.ledger cid := by
  refine ⟨?_, ?_, ?_, ?_, ?_⟩
  · simp [deleteRoute, hr]
  · simp only [deleteRoute, hr]
    rw [dbGet, List.find?_eq_none]
    intro x hx
    rw [List.mem_filter] at hx
    simpa using hx.2
  · intro p hp
    simp [deleteRoute, hr, hp]
    exact not_mem_fsRemove st.files p
  · simp [deleteRoute, hr]
  · simp [deleteRoute, hr]

/-- Witness for C9: deleting `CERT1`'s row (with its document) from a
backend state whose ledger still holds `CERT1`. -/
theorem delete_local_only_witness :
    (deleteRoute
        { ledger := regEx1
          rows := [{ certId := "CERT1", studentName := "Ada Lovelace"
                     course := "Computer Science", grade := "A"
                     issueDate := "t", txHash := some "0x1"
                     documentPath := some "CERT1.pdf"
                     documentOriginalName := some "scan.pdf", notes := none }]
          files := ["CERT1.pdf"] } "CERT1").2 = DeleteResponse.success ∧
    dbGet (deleteRoute
        { ledger := regEx1
          rows := [{ certId := "CERT1", studentName := "Ada Lovelace"
                     course := "Computer Science", grade := "A"
                     issueDate := "t", txHash := some "0x1"
                     documentPath := some "CERT1.pdf"
                     documentOriginalName := some "scan.pdf", notes := none }]
          files := ["CERT1.pdf"] } "CERT1").1.rows "CERT1" = none ∧
    verifyCertificate (deleteRoute
        { ledger := regEx1
          rows := [{ certId := "CERT1", studentName := "Ada Lovelace"
                     course := "Computer Science", grade := "A"
                     issueDate := "t", txHash := some "0x1"
                     documentPath := some "CERT1.pdf"
                     documentOriginalName := some "scan.pdf", notes := none }]
          files := ["CERT1.pdf"] } "CERT1").1.ledger "CERT1" =
      verifyCertificate regEx1 "CERT1" := by
  have h := delete_local_only
    { ledger := regEx1
      rows := [{ certId := "CERT1", studentName := "Ada Lovelace"
                 course := "Computer Science", grade := "A"
                 issueDate := "t", txHash := some "0x1"
                 documentPath := some "CERT1.pdf"
                 documentOriginalName := some "scan.pdf", notes := none }]
      files := ["CERT1.pdf"] } "CERT1"
    { certId := "CERT1", studentName := "Ada Lovelace"
      course := "Computer Science", grade := "A"
      issueDate := "t", txHash := some "0x1"
      documentPath := some "CERT1.pdf"
      documentOriginalName := some "scan.pdf", notes := none } rfl
  exact ⟨h.1, h.2.1, h.2.2.2.2⟩

/-- Claim C10: For a certId whose ledger record is revoked, both artifact
routes (certificate PDF and stamped-document download) answer the
`'Certificate has been revoked'` error; and either route produces an
artifact only over a working link for an id that exists on the ledger
and is not revoked. -/
theorem revoked_blocks_artifacts (st : ServerState) (cid : String) :
    ((st.ledger.certificates cid).exists_ = true →
      (st.ledger.certificates cid).isRevoked = true →
      pdfRoute Link.up st cid = ArtifactResponse.revokedError ∧
      downloadRoute Link.up st cid = ArtifactResponse.revokedError) ∧
    (∀ link c, pdfRoute link st cid = ArtifactResponse.artifact c →
      link = Link.up ∧ (st.ledger.certificates cid).exists_ = true ∧
      (st.ledger.certificates cid).isRevoked = false) ∧
    (∀ link c, downloadRoute link st cid = ArtifactResponse.artifact c →
      link = Link.up ∧ (st.ledger.certificates cid).exists_ = true ∧
      (st.ledger.certificates cid).isRevoked = false) := by
  refine ⟨?_, ?_, ?_⟩
  · intro hex hrev
    constructor
    · simp [pdfRoute, callVerify, verifyCertificate, hex, hrev]
    · simp [downloadRoute, callVerify, verifyCertificate, hex, hrev]
  · intro link c h
    cases link with
    | down m =>
        exfalso
        have hmatch : pdfRoute (Link.down m) st cid =
            (if strContains m "Certificate does not exist" then
              ArtifactResponse.notFoundChain
            else ArtifactResponse.serverError m) := rfl
        rw [hmatch] at h
        by_cases hm : strContains m "Certificate does not exist" = true
        · rw [if_pos hm] at h
          cases h
        · rw [if_neg hm] at h
          cases h
    | up =>
        by_cases hex2 : (st.ledger.certificates cid).exists_ = false
        · exfalso
          simp [pdfRoute, callVerify, verifyCertificate, hex2, strContains,
            strContainsAux] at h
        · by_cases hrev2 : (st.ledger.certificates cid).isRevoked = true
          · exfalso
            simp [pdfRoute, callVerify, verifyCertificate, hex2, hrev2] at h
          · exact ⟨rfl, by simpa using hex2, by simpa using hrev2⟩
  · intro link c h
    cases link with
    | down m =>
        exfalso
        have hmatch : downloadRoute (Link.down m) st cid =
            (if strContains m "Certificate does not exist" then
              ArtifactResponse.notFoundChain
            else ArtifactResponse.serverError m) := rfl
        rw [hmatch] at h
        by_cases hm : strContains m "Certificate does not exist" = true
        · rw [if_pos hm] at h
          cases h
        · rw [if_neg hm] at h
          cases h
    | up =>
        by_cases hex2 : (st.ledger.certificates cid).exists_ = false
        · exfalso
          simp [downloadRoute, callVerify, verifyCertificate, hex2, strContains,
            strContainsAux] at h
        · by_cases hrev2 : (st.ledger.certificates cid).isRevoked = true
          · exfalso
            simp [downloadRoute, callVerify, verifyCertificate, hex2, hrev2] at h
          · exact ⟨rfl, by simpa using hex2, by simpa using hrev2⟩

/-- Witness for C10: with `CERT1` revoked on the ledger, both artifact
routes refuse with the revoked error. -/
theorem revoked_blocks_artifacts_witness :
    pdfRoute Link.up { ledger := regEx2, rows := [], files := [] } "CERT1" =
      ArtifactResponse.revokedError ∧
    downloadRoute Link.up { ledger := regEx2, rows := [], files := [] } "CERT1" =
      ArtifactResponse.revokedError :=
  (revoked_blocks_artifacts
    { ledger := regEx2, rows := [], files := [] } "CERT1").1 rfl rfl

end CertSys
